import Mathlib

/-!
Verification development for the celo-mind-web pending-transaction core.

The definitions below are a shallow embedding of the transaction state
machine, the chain adapter, the transaction executor, the status
reconciler and the dependency resolver of the repository
(src/src/services/transactionService.ts and the unnamed service variants
part_001, part_002, part_003, plus src/src/components/TransactionMonitor.tsx).
External effects (the wallet provider, the backend store, chain RPC) are
modelled by explicit outcome parameters; every backend status update and
every wallet-facing request a run issues is collected in a trace.
-/

/-- Transaction statuses (the TransactionStatus enum; APPROVAL_PENDING
appears only in the part_001 variant). -/
inductive TxStatus where
  | pending
  | submitted
  | confirmed
  | rejected
  | failed
  | approvalPending
  deriving DecidableEq, Repr, Fintype

/-- A JavaScript error as the services inspect one: an optional numeric
code and a message string (a missing/falsy message is the empty string,
on which every substring test below is false, as in the source). -/
structure JsError where
  code : Option Int
  msg : String
  deriving DecidableEq, Repr

/-- charsStartWith hay needle: needle is a leading segment of hay
(JS String.prototype.startsWith on the char lists). -/
def charsStartWith : List Char → List Char → Bool
  | _, [] => true
  | [], _ :: _ => false
  | a :: as, b :: bs => a == b && charsStartWith as bs

/-- subSearch needle hay: needle occurs contiguously somewhere in hay
(JS String.prototype.includes on the char lists). -/
def subSearch (needle : List Char) : List Char → Bool
  | [] => charsStartWith [] needle
  | c :: rest => charsStartWith (c :: rest) needle || subSearch needle rest

/-- JS hay.includes(sub). -/
def strIncludes (hay sub : String) : Bool :=
  subSearch sub.data hay.data

/-- JS s.startsWith(p). -/
def strStartsWith (s p : String) : Bool :=
  charsStartWith s.data p.data

/-- JS s.length (all strings involved are ASCII, so the character count
matches the UTF-16 unit count). -/
def strLen (s : String) : Nat :=
  s.data.length

/-- JS s.toLowerCase() (ASCII case folding suffices for the inputs used). -/
def strLower (s : String) : String :=
  String.mk (s.data.map Char.toLower)

/-- JS template `0x${n.toString(16)}` (lowercase hex digits). -/
def chainHexOf (n : Nat) : String :=
  "0x" ++ String.mk (Nat.toDigits 16 n)

def celoChainHex : String := chainHexOf 42220
def baseChainHex : String := chainHexOf 8453
def arbitrumChainHex : String := chainHexOf 42161
def mantleChainHex : String := chainHexOf 5000
def zksyncChainHex : String := chainHexOf 324

/-- nativeCurrency descriptor of a network parameter object. -/
structure NativeCurrency where
  name : String
  symbol : String
  decimals : Nat
  deriving DecidableEq, Repr

/-- The full network descriptor passed to wallet_addEthereumChain. -/
structure NetworkParams where
  chainId : String
  chainName : String
  nativeCurrency : NativeCurrency
  rpcUrls : List String
  blockExplorerUrls : List String
  deriving DecidableEq, Repr

/-- CELO_NETWORK_PARAMS of src/src/constants/network.ts (used by
switchToChain in transactionService.ts). -/
def celoNetworkParams : NetworkParams :=
  { chainId := celoChainHex
    chainName := "Celo Mainnet"
    nativeCurrency := { name := "CELO", symbol := "CELO", decimals := 18 }
    rpcUrls := ["https://forno.celo.org", "https://rpc.ankr.com/celo",
      "https://celo-mainnet.infura.io/v3/9aa3d95b3bc440fa88ea12eaa4456161"]
    blockExplorerUrls := ["https://celoscan.io/"] }

/-- BASE_NETWORK_PARAMS of src/src/services/transactionService.ts. -/
def baseNetworkParams : NetworkParams :=
  { chainId := baseChainHex
    chainName := "Base Mainnet"
    nativeCurrency := { name := "ETH", symbol := "ETH", decimals := 18 }
    rpcUrls := ["https://mainnet.base.org", "https://base-mainnet.public.blastapi.io",
      "https://base.meowrpc.com"]
    blockExplorerUrls := ["https://basescan.org/"] }

/-- ARBITRUM_NETWORK_PARAMS of src/src/services/transactionService.ts. -/
def arbitrumNetworkParams : NetworkParams :=
  { chainId := arbitrumChainHex
    chainName := "Arbitrum One"
    nativeCurrency := { name := "ETH", symbol := "ETH", decimals := 18 }
    rpcUrls := ["https://arb1.arbitrum.io/rpc", "https://arbitrum-one.public.blastapi.io",
      "https://arbitrum.meowrpc.com"]
    blockExplorerUrls := ["https://arbiscan.io/"] }

/-- MANTLE_NETWORK_PARAMS of src/src/services/transactionService.ts. -/
def mantleNetworkParams : NetworkParams :=
  { chainId := mantleChainHex
    chainName := "Mantle Mainnet"
    nativeCurrency := { name := "MNT", symbol := "MNT", decimals := 18 }
    rpcUrls := ["https://rpc.mantle.xyz", "https://mantle-mainnet.public.blastapi.io",
      "https://mantle.publicnode.com"]
    blockExplorerUrls := ["https://explorer.mantle.xyz/"] }

/-- ZKSYNC_NETWORK_PARAMS of src/src/services/transactionService.ts. -/
def zksyncNetworkParams : NetworkParams :=
  { chainId := zksyncChainHex
    chainName := "zkSync Era Mainnet"
    nativeCurrency := { name := "ETH", symbol := "ETH", decimals := 18 }
    rpcUrls := ["https://mainnet.era.zksync.io",
      "https://zksync-era.blockpi.network/v1/rpc/public", "https://zksync.meowrpc.com"]
    blockExplorerUrls := ["https://explorer.zksync.io/"] }

/-- The local CELO_NETWORK_PARAMS of src/unnamed/part_002 (two RPC urls). -/
def celoNetworkParamsP2 : NetworkParams :=
  { chainId := celoChainHex
    chainName := "Celo Mainnet"
    nativeCurrency := { name := "CELO", symbol := "CELO", decimals := 18 }
    rpcUrls := ["https://forno.celo.org", "https://rpc.ankr.com/celo"]
    blockExplorerUrls := ["https://celoscan.io/"] }

/-- The chain parameter of switchToChain. -/
inductive ChainName where
  | celo
  | base
  | arbitrum
  | mantle
  | zksync
  deriving DecidableEq, Repr

/-- The targetChainHex chosen by switchToChain's switch statement
(case celo and the default both yield Celo). -/
def targetChainHex : ChainName → String
  | .base => baseChainHex
  | .arbitrum => arbitrumChainHex
  | .mantle => mantleChainHex
  | .zksync => zksyncChainHex
  | .celo => celoChainHex

/-- The networkParams chosen by switchToChain's switch statement. -/
def targetNetworkParams : ChainName → NetworkParams
  | .base => baseNetworkParams
  | .arbitrum => arbitrumNetworkParams
  | .mantle => mantleNetworkParams
  | .zksync => zksyncNetworkParams
  | .celo => celoNetworkParams

/-- One wallet-facing provider.request call. -/
inductive WalletReq where
  | chainIdReq
  | switchReq (chainId : String)
  | addReq (params : NetworkParams)
  deriving DecidableEq, Repr

/-- The typed failures switchToChain / switchToceloChain can raise
(NetworkErrorType.CHAIN_ADD_FAILED / NETWORK_SWITCH_FAILED). -/
inductive ChainSwitchError where
  | chainAddFailed
  | networkSwitchFailed
  deriving DecidableEq, Repr

/-- Result of a chain-switch call: normal return or a thrown typed error. -/
inductive SwitchResult where
  | ok (b : Bool)
  | error (e : ChainSwitchError)
  deriving DecidableEq, Repr

/-- How the provider behaves on this call: its reported current chain
id, and whether wallet_switchEthereumChain / wallet_addEthereumChain
succeed (none) or throw the given error. -/
structure ProviderState where
  currentChainId : String
  switchResult : Option JsError
  addResult : Option JsError
  deriving DecidableEq, Repr

/-- The unknown-chain condition of both adapters: error code 4902 or a
message containing "chain hasn't been added". -/
def isUnknownChainError (e : JsError) : Bool :=
  e.code == some 4902 || strIncludes e.msg "chain hasn't been added"

/-- switchToChain of src/src/services/transactionService.ts. Reads
eth_chainId (the value is only logged, never compared), then requests
wallet_switchEthereumChain unconditionally; on the unknown-chain error it
requests wallet_addEthereumChain with the full descriptor and returns
true without retrying the switch. Returns the wallet requests issued and
the result. -/
def switchToChain (p : ProviderState) (chain : ChainName) :
    List WalletReq × SwitchResult :=
  let hexId := targetChainHex chain
  let params := targetNetworkParams chain
  let reqs1 := [WalletReq.chainIdReq, WalletReq.switchReq hexId]
  match p.switchResult with
  | none => (reqs1, .ok true)
  | some e =>
    if isUnknownChainError e then
      match p.addResult with
      | none => (reqs1 ++ [WalletReq.addReq params], .ok true)
      | some _ => (reqs1 ++ [WalletReq.addReq params], .error .chainAddFailed)
    else
      (reqs1, .error .networkSwitchFailed)

/-- switchToceloChain of src/unnamed/part_002. Unlike switchToChain it
returns success after only the chain-id read when the wallet is already
on Celo. -/
def switchToceloChain (p : ProviderState) : List WalletReq × SwitchResult :=
  if p.currentChainId == celoChainHex then
    ([WalletReq.chainIdReq], .ok true)
  else
    let reqs1 := [WalletReq.chainIdReq, WalletReq.switchReq celoChainHex]
    match p.switchResult with
    | none => (reqs1, .ok true)
    | some e =>
      if isUnknownChainError e then
        match p.addResult with
        | none => (reqs1 ++ [WalletReq.addReq celoNetworkParamsP2], .ok true)
        | some _ => (reqs1 ++ [WalletReq.addReq celoNetworkParamsP2], .error .chainAddFailed)
      else
        (reqs1, .error .networkSwitchFailed)

/-- Transaction metadata (superset of the fields the embedded functions
consult: the approval link and description of part_001 and the chain tag
of transactionService.ts). -/
structure TxMetadata where
  approvalTxId : Option String := none
  description : Option String := none
  chain : Option ChainName := none
  deriving DecidableEq, Repr

/-- A pending transaction record as the services consume it. -/
structure PendingTx where
  id : String
  -- the source's field `to` (destination address); `to` is a reserved token here
  toAddr : String
  value : Option String := none
  data : Option String := none
  status : TxStatus
  hash : Option String := none
  metadata : Option TxMetadata := none
  deriving DecidableEq, Repr

/-- One call against the backend store: a status update (optionally
carrying a hash), or the dedicated hash update of part_001. -/
inductive BackendUpdate where
  | setStatus (txId : String) (status : TxStatus) (hash : Option String)
  | setHash (txId : String) (hash : String)
  deriving DecidableEq, Repr

/-- What one executeTransaction run did: the backend updates it issued in
order, how many walletClient.sendTransaction calls it made, the value it
returned (none = null), and whether it exited by throwing. -/
structure ExecTrace where
  updates : List BackendUpdate
  sendCalls : Nat
  result : Option String
  threw : Bool
  deriving DecidableEq, Repr

/-- Outcome of the one sendTransaction call an executor makes. -/
inductive SendOutcome where
  | ok (hash : String)
  | err (e : JsError)
  deriving DecidableEq, Repr

/-- How the chain-adaptation prologue of transactionService.ts's
executeTransaction went: no provider handle, adapted (switchToChain
returned), switchToChain threw its typed TransactionError (rethrown
before any update), or an untyped switch failure (logged, run continues). -/
inductive AdaptOutcome where
  | noProvider
  | adapted
  | switchTxError
  | switchOtherError
  deriving DecidableEq, Repr

/-- The user-rejection test of transactionService.ts's executeTransaction
(code 4001, or message containing rejected/denied/cancelled/canceled). -/
def isUserRejectionTS (e : JsError) : Bool :=
  e.code == some 4001 ||
    (strIncludes e.msg "rejected" || strIncludes e.msg "denied" ||
      strIncludes e.msg "cancelled" || strIncludes e.msg "canceled")

/-- The send block of transactionService.ts's executeTransaction (lines
after the chain-adaptation prologue): mark SUBMITTED (no hash) before
sending; on a successful sendTransaction record the returned hash with
status CONFIRMED; on user rejection mark REJECTED and throw; on any
other send error mark FAILED and throw. -/
def sendPhaseTS (send : SendOutcome) (tx : PendingTx) : ExecTrace :=
  let pre := [BackendUpdate.setStatus tx.id .submitted none]
  match send with
  | .ok h =>
    { updates := pre ++ [.setStatus tx.id .confirmed (some h)],
      sendCalls := 1, result := some h, threw := false }
  | .err e =>
    if isUserRejectionTS e then
      { updates := pre ++ [.setStatus tx.id .rejected none],
        sendCalls := 1, result := none, threw := true }
    else
      { updates := pre ++ [.setStatus tx.id .failed none],
        sendCalls := 1, result := none, threw := true }

/-- executeTransaction of src/src/services/transactionService.ts.
A missing wallet client or a typed switchToChain failure throws before
any update; every other adaptation outcome (no provider handle, adapted,
untyped switch failure) falls through to the send block. -/
def executeTransactionTS (walletPresent : Bool) (adapt : AdaptOutcome)
    (send : SendOutcome) (tx : PendingTx) : ExecTrace :=
  if !walletPresent then
    -- throw TransactionError 'No wallet client available', no update issued
    { updates := [], sendCalls := 0, result := none, threw := true }
  else
    match adapt with
    | .switchTxError =>
      -- switchToChain's TransactionError is rethrown before any update
      { updates := [], sendCalls := 0, result := none, threw := true }
    | _ => sendPhaseTS send tx

/-- Outcome of part_001's signing block (getAddresses, then
sendTransaction). -/
inductive SignOutcome where
  | addressesErr (e : JsError)
  | sendErr (e : JsError)
  | sendOk (v : String)
  deriving DecidableEq, Repr

/-- The user-rejection test of part_001's executeTransaction inner catch
(codes 4001 / -32603, or message containing one of six patterns). -/
def isUserRejectionP1 (e : JsError) : Bool :=
  e.code == some 4001 || e.code == some (-32603) ||
    (strIncludes e.msg "reject" || strIncludes e.msg "denied" ||
      strIncludes e.msg "cancel" || strIncludes e.msg "dismissed" ||
      strIncludes e.msg "user declined" || strIncludes e.msg "user denied")

/-- The hash-format validation of part_001's executeTransaction:
a truthy string starting with 0x of length 66. -/
def isValidTxHash (v : String) : Bool :=
  !v.data.isEmpty && strStartsWith v "0x" && strLen v == 66

/-- The error part_001 throws for a malformed sendTransaction result; its
message embeds the offending value. -/
def invalidHashError (v : String) : JsError :=
  { code := none, msg := "Invalid transaction hash format received: " ++ v }

/-- executeTransaction of src/unnamed/part_001. Marks SUBMITTED before
sending; a valid returned hash is recorded with a second SUBMITTED
update; a malformed value raises the invalid-hash error, which the inner
catch classifies with the rejection patterns (REJECTED) or rethrows to
the outer catch (FAILED); all error paths return null. -/
def executeTransactionP1 (walletPresent : Bool) (o : SignOutcome)
    (tx : PendingTx) : ExecTrace :=
  if !walletPresent then
    -- throw 'No wallet client available' → outer catch marks FAILED, returns null
    { updates := [BackendUpdate.setStatus tx.id .failed none],
      sendCalls := 0, result := none, threw := false }
  else
    let pre := [BackendUpdate.setStatus tx.id .submitted none]
    let innerCatch (sends : Nat) (e : JsError) : ExecTrace :=
      if isUserRejectionP1 e then
        { updates := pre ++ [.setStatus tx.id .rejected none],
          sendCalls := sends, result := none, threw := false }
      else
        -- rethrown → outer catch marks FAILED, returns null
        { updates := pre ++ [.setStatus tx.id .failed none],
          sendCalls := sends, result := none, threw := false }
    match o with
    | .addressesErr e => innerCatch 0 e
    | .sendErr e => innerCatch 1 e
    | .sendOk v =>
      if isValidTxHash v then
        { updates := pre ++ [.setStatus tx.id .submitted (some v)],
          sendCalls := 1, result := some v, threw := false }
      else
        innerCatch 1 (invalidHashError v)

/-- The user-rejection test of part_003's executeTransaction outer catch. -/
def isUserRejectionP3 (e : JsError) : Bool :=
  e.code == some 4001 ||
    (strIncludes e.msg "user rejected" || strIncludes e.msg "User denied" ||
      strIncludes e.msg "rejected" || strIncludes e.msg "cancelled")

/-- Outcome of part_003's waitForTransactionReceipt: the call threw (no
receipt obtained) or yielded a receipt with the given status string. -/
inductive ReceiptResult where
  | fetchError
  | receipt (status : String)
  deriving DecidableEq, Repr

/-- executeTransaction of src/unnamed/part_003. Marks SUBMITTED, sends,
records the hash with a second SUBMITTED update, then — when a public
client was supplied — waits for the receipt: status 'success' yields
CONFIRMED, any other receipt status yields FAILED, and a failed receipt
fetch is caught leaving the status unchanged. -/
def executeTransactionP3 (walletPresent : Bool) (send : SendOutcome)
    (publicClientPresent : Bool) (r : ReceiptResult) (tx : PendingTx) : ExecTrace :=
  if !walletPresent then
    -- throw 'No wallet client available' → outer catch: no rejection pattern → FAILED
    { updates := [BackendUpdate.setStatus tx.id .failed none],
      sendCalls := 0, result := none, threw := false }
  else
    let pre := [BackendUpdate.setStatus tx.id .submitted none]
    match send with
    | .err e =>
      if isUserRejectionP3 e then
        { updates := pre ++ [.setStatus tx.id .rejected none],
          sendCalls := 1, result := none, threw := false }
      else
        { updates := pre ++ [.setStatus tx.id .failed none],
          sendCalls := 1, result := none, threw := false }
    | .ok h =>
      let withHash := pre ++ [BackendUpdate.setStatus tx.id .submitted (some h)]
      if publicClientPresent then
        match r with
        | .fetchError =>
          { updates := withHash, sendCalls := 1, result := some h, threw := false }
        | .receipt s =>
          if s == "success" then
            { updates := withHash ++ [.setStatus tx.id .confirmed (some h)],
              sendCalls := 1, result := some h, threw := false }
          else
            { updates := withHash ++ [.setStatus tx.id .failed (some h)],
              sendCalls := 1, result := some h, threw := false }
      else
        { updates := withHash, sendCalls := 1, result := some h, threw := false }

/-- tx.metadata?.approvalTxId (undefined when no metadata). -/
def metaApprovalTxId (tx : PendingTx) : Option String :=
  match tx.metadata with
  | none => none
  | some m => m.approvalTxId

/-- tx.metadata?.description?.toLowerCase().includes('approval'). -/
def descHasApproval (tx : PendingTx) : Bool :=
  match tx.metadata with
  | none => false
  | some m =>
    match m.description with
    | none => false
    | some d => strIncludes (strLower d) "approval"

/-- The scan predicate of part_001's processPendingTransactions: a
CONFIRMED transaction whose description flags it as an approval and that
some APPROVAL_PENDING transaction in the list references by id. -/
def isConfirmedApprovalWithDependent (txs : List PendingTx) (tx : PendingTx) : Bool :=
  tx.status == .confirmed && descHasApproval tx &&
    txs.any (fun o => o.status == .approvalPending && metaApprovalTxId o == some tx.id)

/-- The dependent-lookup predicate: an APPROVAL_PENDING transaction whose
metadata references approval a by id. -/
def isDependentOf (a : PendingTx) (tx : PendingTx) : Bool :=
  tx.status == .approvalPending && metaApprovalTxId tx == some a.id

/-- Outcome of the executor phase of part_001's processPendingTransactions:
getAddresses threw, it returned no account, or sendTransaction resolved/threw. -/
inductive P1ProcOutcome where
  | addrThrow
  | addrEmpty
  | procSendOk (hash : String)
  | procSendErr (e : JsError)
  deriving DecidableEq, Repr

/-- The rejection test of processPendingTransactions' catch
(code 4001 or message containing 'user rejected'). -/
def isUserRejectionProc (e : JsError) : Bool :=
  e.code == some 4001 || strIncludes e.msg "user rejected"

/-- The executor phase of part_001's processPendingTransactions: pick the
first PENDING transaction, check wallet addresses, mark SUBMITTED, send,
then record the hash via the hash endpoint, or mark REJECTED/FAILED. -/
def executorPhase (o : P1ProcOutcome) (txs : List PendingTx) : List BackendUpdate :=
  match txs.find? (fun tx => tx.status == .pending) with
  | none => []
  | some ptx =>
    match o with
    | .addrThrow => []
    | .addrEmpty => []
    | .procSendOk h =>
      [BackendUpdate.setStatus ptx.id .submitted none, BackendUpdate.setHash ptx.id h]
    | .procSendErr e =>
      if isUserRejectionProc e then
        [BackendUpdate.setStatus ptx.id .submitted none,
          BackendUpdate.setStatus ptx.id .rejected none]
      else
        [BackendUpdate.setStatus ptx.id .submitted none,
          BackendUpdate.setStatus ptx.id .failed none]

/-- processPendingTransactions of src/unnamed/part_001 (the dependency
resolver followed by the executor phase). At most one dependent is
released per call: when the scan finds a confirmed approval with a
waiting dependent, that dependent alone is marked PENDING and the call
returns; otherwise the executor phase runs. -/
def processPendingTransactionsP1 (walletPresent : Bool) (o : P1ProcOutcome)
    (txs : List PendingTx) : List BackendUpdate :=
  if !walletPresent || txs.isEmpty then []
  else
    match txs.find? (fun tx => isConfirmedApprovalWithDependent txs tx) with
    | some a =>
      match txs.find? (fun tx => isDependentOf a tx) with
      | some d => [BackendUpdate.setStatus d.id .pending none]
      | none => executorPhase o txs
    | none => executorPhase o txs

/-- The provider handle createPrivyWalletClient resolves: whether it has
a request method and what its eth_chainId test returns (none = the test
request throws). -/
structure ProviderSpec where
  hasRequest : Bool
  chainIdResult : Option String
  deriving DecidableEq, Repr

/-- What wallet.getEthereumProvider() does. -/
inductive ProviderFetch where
  | throws
  | retNone
  | retSome (p : ProviderSpec)
  deriving DecidableEq, Repr

/-- The wallet argument of createPrivyWalletClient, as the function
inspects it: null-ness, the getEthereumProvider behaviour, the
wallet.provider fallback, and whether the created client's own
getAddresses/getChainId test succeeds. -/
structure WalletSpec where
  isNull : Bool
  fetch : ProviderFetch
  fallbackProvider : Option ProviderSpec
  clientTestOk : Bool
  deriving DecidableEq, Repr

/-- The viem chain a wallet client is created with. -/
inductive ViemChain where
  | celoChain
  | baseChain
  | arbitrumChain
  | mantleChain
  | zkSyncChain
  deriving DecidableEq, Repr

/-- The chain detection of createPrivyWalletClient (transactionService.ts):
known hex ids map to their chain, anything else defaults to Base. -/
def detectChain (chainId : String) : ViemChain :=
  if chainId == baseChainHex then .baseChain
  else if chainId == arbitrumChainHex then .arbitrumChain
  else if chainId == celoChainHex then .celoChain
  else if chainId == mantleChainHex then .mantleChain
  else .baseChain

/-- The provider-resolution step of createPrivyWalletClient: the value of
getEthereumProvider when truthy, else wallet.provider (the same fallback
serves the catch branch when getEthereumProvider throws). -/
def resolvedProvider (w : WalletSpec) : Option ProviderSpec :=
  match w.fetch with
  | .retSome p => some p
  | .retNone => w.fallbackProvider
  | .throws => w.fallbackProvider

/-- createPrivyWalletClient of src/src/services/transactionService.ts.
Every failure path is caught by the outer catch and yields null (none):
a null wallet, no resolvable provider, a provider without request, or a
failed provider test followed by a failed wallet-client test. A
successful provider test returns a client on the detected chain; a
failed provider test falls back to a Base-chain client guarded by the
wallet-client test. -/
def createPrivyWalletClient (w : WalletSpec) : Option ViemChain :=
  if w.isNull then none
  else
    match resolvedProvider w with
    | none => none
    | some p =>
      if !p.hasRequest then none
      else
        match p.chainIdResult with
        | some cid => some (detectChain cid)
        | none => if w.clientTestOk then some ViemChain.baseChain else none

/-- The transaction loop of TransactionMonitor.processTransactions: walk
the fetched list, execute the first PENDING transaction, stop after a
normal return, continue past one that threw. The same environment
(adaptation and send outcome) is used for each attempt of the cycle. -/
def monitorLoop (adapt : AdaptOutcome) (send : SendOutcome) :
    List PendingTx → List BackendUpdate
  | [] => []
  | tx :: rest =>
    if tx.status == .pending then
      let r := executeTransactionTS true adapt send tx
      if r.threw then r.updates ++ monitorLoop adapt send rest
      else r.updates
    else monitorLoop adapt send rest

/-- processTransactions of src/src/components/TransactionMonitor.tsx:
create the wallet client; when that yields null, return before touching
any transaction; otherwise run the loop over the fetched list. -/
def processTransactionsMonitor (w : WalletSpec) (adapt : AdaptOutcome)
    (send : SendOutcome) (txs : List PendingTx) : List BackendUpdate :=
  match createPrivyWalletClient w with
  | none => []
  | some _ => monitorLoop adapt send txs

/-- The statuses a list of backend updates writes, in order. -/
def statusesOf (updates : List BackendUpdate) : List TxStatus :=
  updates.filterMap (fun u =>
    match u with
    | .setStatus _ s _ => some s
    | .setHash _ _ => none)

/-- The transition edges the specification's state machine (§4.1) allows. -/
def specEdge : TxStatus → TxStatus → Bool
  | .pending, .submitted => true
  | .submitted, .confirmed => true
  | .submitted, .failed => true
  | .pending, .rejected => true
  | .pending, .failed => true
  | .approvalPending, .pending => true
  | _, _ => false

/-- The edges the embedded executors actually produce: the spec's edges,
plus the SUBMITTED self-edge (the hash-recording re-update) and
SUBMITTED → REJECTED (the executor marks SUBMITTED before requesting the
signature, so a user rejection follows SUBMITTED). -/
def observedEdge (a b : TxStatus) : Bool :=
  specEdge a b || (a == .submitted && b == .submitted) ||
    (a == .submitted && b == .rejected)

/-- Terminal statuses (never left again). -/
def isTerminal : TxStatus → Bool
  | .confirmed => true
  | .failed => true
  | .rejected => true
  | _ => false

/-- A backend update that releases a transaction to PENDING. -/
def isReleaseUpdate : BackendUpdate → Bool
  | .setStatus _ .pending _ => true
  | _ => false

/-- A wallet_switchEthereumChain request. -/
def isSwitchReq : WalletReq → Bool
  | .switchReq _ => true
  | _ => false

/-- The spec's scenario transaction (§8): destination 0xAAAA…, one ether
in wei, no call data, queued as PENDING. -/
def txScenario : PendingTx :=
  { id := "tx1", toAddr := "0xAAAA", value := some "1000000000000000000",
    status := .pending }

/-- A well-formed transaction hash: 0x plus 64 hex characters. -/
def sampleHash : String :=
  "0xaaaaaaaaaaaaaaaaaaaaaaaaaaaaaaaaaaaaaaaaaaaaaaaaaaaaaaaaaaaaaaaa"

/-- A provider whose wallet is already on the Celo chain and whose
switch/add requests would succeed. -/
def providerOnCelo : ProviderState :=
  { currentChainId := celoChainHex, switchResult := none, addResult := none }

/-- A provider on a foreign chain that reports the unknown-chain error
(code 4902) for switch requests and accepts add requests. -/
def providerUnknownChain : ProviderState :=
  { currentChainId := "0x1", switchResult := some { code := some 4902, msg := "" },
    addResult := none }

/-- The standard user-rejection error (MetaMask code 4001). -/
def rejectionError : JsError := { code := some 4001, msg := "" }

/-- A CONFIRMED transaction whose description flags it as an approval,
with no stored approval link of its own. -/
def approvalTxA : PendingTx :=
  { id := "a1", toAddr := "0xToken", status := .confirmed,
    metadata := some ⟨none, some "Approval of XOC spending", none⟩ }

/-- An APPROVAL_PENDING transaction referencing approvalTxA by id. -/
def dependentTxB : PendingTx :=
  { id := "b1", toAddr := "0xToken", status := .approvalPending,
    metadata := some { approvalTxId := some "a1", description := none, chain := none } }

/-- A CONFIRMED transaction referenced by a dependent but whose
description does not contain the word approval. -/
def confirmedNoFlagTx : PendingTx :=
  { id := "a2", toAddr := "0xToken2", status := .confirmed,
    metadata := some ⟨none, some "Token permit", none⟩ }

/-- An APPROVAL_PENDING transaction referencing confirmedNoFlagTx by id. -/
def blockedTxB : PendingTx :=
  { id := "b2", toAddr := "0xToken2", status := .approvalPending,
    metadata := some { approvalTxId := some "a2", description := none, chain := none } }

/-- A CONFIRMED approval-flagged transaction with no dependent linked by id. -/
def confirmedApprovalNoLink : PendingTx :=
  { id := "a3", toAddr := "0xTokenXYZ", status := .confirmed,
    metadata := some ⟨none, some "XOC approval", none⟩ }

/-- A blocked transaction sharing confirmedApprovalNoLink's destination
and carrying an ERC-20 approve selector in its call data, but with no
stored approval id. -/
def blockedSameDest : PendingTx :=
  { id := "b3", toAddr := "0xTokenXYZ", data := some "0x095ea7b3ffff",
    status := .approvalPending,
    metadata := some { approvalTxId := none, description := none, chain := none } }

/-- The executor phase never issues a PENDING status update. -/
theorem executorPhase_no_release (o : P1ProcOutcome) (txs : List PendingTx) :
    ∀ u ∈ executorPhase o txs, isReleaseUpdate u = false := by
  intro u hu
  cases hfind : txs.find? (fun tx => tx.status == .pending) with
  | none => simp [executorPhase, hfind] at hu
  | some ptx =>
    cases o with
    | addrThrow => simp [executorPhase, hfind] at hu
    | addrEmpty => simp [executorPhase, hfind] at hu
    | procSendOk h =>
      simp [executorPhase, hfind] at hu
      rcases hu with rfl | rfl <;> rfl
    | procSendErr e =>
      cases hr : isUserRejectionProc e <;> simp [executorPhase, hfind, hr] at hu <;>
        rcases hu with rfl | rfl <;> rfl

/-- Each run of processPendingTransactionsP1 issues either no update,
exactly the one release update of the dependent the resolver found, or
the executor phase's updates. -/
theorem processP1_shape (w : Bool) (o : P1ProcOutcome) (txs : List PendingTx) :
    processPendingTransactionsP1 w o txs = []
  ∨ (∃ a d, txs.find? (fun tx => isConfirmedApprovalWithDependent txs tx) = some a ∧
      txs.find? (fun tx => isDependentOf a tx) = some d ∧
      processPendingTransactionsP1 w o txs = [BackendUpdate.setStatus d.id TxStatus.pending none])
  ∨ processPendingTransactionsP1 w o txs = executorPhase o txs := by
  cases hw : (!w || txs.isEmpty) with
  | true => exact Or.inl (by simp [processPendingTransactionsP1, hw])
  | false =>
    cases ha : txs.find? (fun tx => isConfirmedApprovalWithDependent txs tx) with
    | none => exact Or.inr (Or.inr (by simp [processPendingTransactionsP1, hw, ha]))
    | some a =>
      cases hd : txs.find? (fun tx => isDependentOf a tx) with
      | none => exact Or.inr (Or.inr (by simp [processPendingTransactionsP1, hw, ha, hd]))
      | some d =>
        exact Or.inr (Or.inl ⟨a, d, rfl, hd, by simp [processPendingTransactionsP1, hw, ha, hd]⟩)

/-- The status sequences executeTransactionP1 can write. -/
theorem executeTransactionP1_statuses (w : Bool) (o : SignOutcome) (tx : PendingTx) :
    statusesOf (executeTransactionP1 w o tx).updates ∈
      [[TxStatus.failed], [TxStatus.submitted, TxStatus.rejected],
        [TxStatus.submitted, TxStatus.failed], [TxStatus.submitted, TxStatus.submitted]] := by
  cases w with
  | false => simp [executeTransactionP1, statusesOf]
  | true =>
    cases o with
    | addressesErr e =>
      cases hr : isUserRejectionP1 e <;> simp [executeTransactionP1, statusesOf, hr]
    | sendErr e =>
      cases hr : isUserRejectionP1 e <;> simp [executeTransactionP1, statusesOf, hr]
    | sendOk v =>
      cases hv : isValidTxHash v
      · cases hr : isUserRejectionP1 (invalidHashError v) <;>
          simp [executeTransactionP1, statusesOf, hv, hr]
      · simp [executeTransactionP1, statusesOf, hv]

/-- The status sequences the send block of transactionService.ts writes. -/
theorem sendPhaseTS_statuses (send : SendOutcome) (tx : PendingTx) :
    statusesOf (sendPhaseTS send tx).updates ∈
      [[TxStatus.submitted, TxStatus.confirmed],
        [TxStatus.submitted, TxStatus.rejected], [TxStatus.submitted, TxStatus.failed]] := by
  cases send with
  | ok h => simp [sendPhaseTS, statusesOf]
  | err e => cases hr : isUserRejectionTS e <;> simp [sendPhaseTS, statusesOf, hr]

/-- The status sequences executeTransactionTS can write. -/
theorem executeTransactionTS_statuses (w : Bool) (adapt : AdaptOutcome)
    (send : SendOutcome) (tx : PendingTx) :
    statusesOf (executeTransactionTS w adapt send tx).updates ∈
      [[], [TxStatus.submitted, TxStatus.confirmed],
        [TxStatus.submitted, TxStatus.rejected], [TxStatus.submitted, TxStatus.failed]] := by
  cases w with
  | false => simp [executeTransactionTS, statusesOf]
  | true =>
    have hsend := sendPhaseTS_statuses send tx
    simp only [List.mem_cons, List.not_mem_nil, or_false] at hsend ⊢
    cases adapt with
    | switchTxError => simp [executeTransactionTS, statusesOf]
    | noProvider => simp only [executeTransactionTS]; tauto
    | adapted => simp only [executeTransactionTS]; tauto
    | switchOtherError => simp only [executeTransactionTS]; tauto

/-- C1 (code_bug evidence). On a successful signature the
transactionService.ts Executor records the returned hash with status
CONFIRMED — not SUBMITTED as the spec states — while the part_001
Executor records the hash with status SUBMITTED as claimed. Evaluated at
the spec's scenario transaction and a well-formed returned hash. -/
theorem executorSuccessStatusC1 :
    (executeTransactionTS true AdaptOutcome.adapted (SendOutcome.ok sampleHash) txScenario).updates
      = [BackendUpdate.setStatus "tx1" TxStatus.submitted none,
          BackendUpdate.setStatus "tx1" TxStatus.confirmed (some sampleHash)]
  ∧ (executeTransactionP1 true (SignOutcome.sendOk sampleHash) txScenario).updates
      = [BackendUpdate.setStatus "tx1" TxStatus.submitted none,
          BackendUpdate.setStatus "tx1" TxStatus.submitted (some sampleHash)] := by
  constructor <;> decide

/-- C2 (counterexample). A provider already on the Celo chain, passed to
switchToChain with target celo: the adapter still issues a
wallet_switchEthereumChain request after the chain-id read (the claim
demands zero further wallet-facing requests for both adapters). -/
theorem chainSwitchNoNoopC2cex :
    providerOnCelo.currentChainId = targetChainHex ChainName.celo
  ∧ (switchToChain providerOnCelo ChainName.celo).1
      = [WalletReq.chainIdReq, WalletReq.switchReq celoChainHex]
  ∧ (switchToChain providerOnCelo ChainName.celo).1 ≠ [WalletReq.chainIdReq]
  ∧ (switchToChain providerOnCelo ChainName.celo).2 = SwitchResult.ok true := by
  refine ⟨rfl, rfl, ?_, rfl⟩
  decide

/-- C2 (amended). switchToceloChain (part_002) on a wallet already on
Celo returns success after only the chain-id read, with zero further
wallet-facing requests; switchToChain (transactionService.ts) on a
wallet already on the target chain issues exactly one
wallet_switchEthereumChain request (and no add request) before returning
success. -/
theorem chainSwitchIdempotencyC2 (p q : ProviderState) (c : ChainName)
    (h1 : p.currentChainId = celoChainHex) (h2 : q.currentChainId = targetChainHex c)
    (h3 : q.switchResult = none) :
    switchToceloChain p = ([WalletReq.chainIdReq], SwitchResult.ok true)
  ∧ switchToChain q c
      = ([WalletReq.chainIdReq, WalletReq.switchReq (targetChainHex c)], SwitchResult.ok true) := by
  constructor
  · simp [switchToceloChain, h1]
  · simp [switchToChain, h3]

/-- C2 (witness). The amended idempotency claim at a wallet sitting on
Celo. -/
theorem chainSwitchIdempotencyC2Witness :
    switchToceloChain providerOnCelo = ([WalletReq.chainIdReq], SwitchResult.ok true)
  ∧ switchToChain providerOnCelo ChainName.celo
      = ([WalletReq.chainIdReq, WalletReq.switchReq (targetChainHex ChainName.celo)],
          SwitchResult.ok true) :=
  chainSwitchIdempotencyC2 providerOnCelo providerOnCelo ChainName.celo rfl rfl rfl

/-- C3 (counterexample). A user rejection produces the consecutive
status pair SUBMITTED → REJECTED, which is not an edge of the claimed
state machine (the Executor marks SUBMITTED before requesting the
signature). -/
theorem statusMachineC3cex :
    specEdge TxStatus.submitted TxStatus.rejected = false
  ∧ TxStatus.pending ::
      statusesOf (executeTransactionP1 true (SignOutcome.sendErr rejectionError) txScenario).updates
      = [TxStatus.pending, TxStatus.submitted, TxStatus.rejected] := by
  constructor <;> decide

/-- C3 (amended). Every status sequence either embedded Executor writes
for a PENDING transaction follows the spec's edges extended with the
SUBMITTED self-edge (hash recording) and SUBMITTED → REJECTED (rejection
after the eager SUBMITTED mark); no edge of this extended machine leaves
a terminal status, so a terminal status is never followed by another. -/
theorem statusMonotonicC3 (w w2 : Bool) (o : SignOutcome) (adapt : AdaptOutcome)
    (send : SendOutcome) (tx tx2 : PendingTx) :
    List.Chain' (fun a b => observedEdge a b = true)
      (TxStatus.pending :: statusesOf (executeTransactionP1 w o tx).updates)
  ∧ List.Chain' (fun a b => observedEdge a b = true)
      (TxStatus.pending :: statusesOf (executeTransactionTS w2 adapt send tx2).updates)
  ∧ (∀ a b : TxStatus, observedEdge a b = true → isTerminal a = false) := by
  refine ⟨?_, ?_, by decide⟩
  · have h := executeTransactionP1_statuses w o tx
    simp only [List.mem_cons, List.not_mem_nil, or_false] at h
    rcases h with h | h | h | h <;> rw [h] <;>
      simp [List.chain'_cons, observedEdge, specEdge]
  · have h := executeTransactionTS_statuses w2 adapt send tx2
    simp only [List.mem_cons, List.not_mem_nil, or_false] at h
    rcases h with h | h | h | h <;> rw [h] <;>
      simp [List.chain'_cons, observedEdge, specEdge]

/-- C4 (counterexample). A CONFIRMED transaction referenced by an
APPROVAL_PENDING dependent releases nothing when its description does
not flag it as an approval: the cycle issues no update at all, though
the claim demands the dependent move to PENDING. -/
theorem dependencyReleaseC4cex :
    confirmedNoFlagTx.status = TxStatus.confirmed
  ∧ blockedTxB.status = TxStatus.approvalPending
  ∧ metaApprovalTxId blockedTxB = some confirmedNoFlagTx.id
  ∧ processPendingTransactionsP1 true P1ProcOutcome.addrThrow
      [confirmedNoFlagTx, blockedTxB] = [] := by
  refine ⟨rfl, rfl, rfl, ?_⟩
  decide

/-- C4 (amended). Per resolver cycle at most one transaction is released
to PENDING; a released dependent always has a CONFIRMED,
approval-flagged (description contains the word approval) transaction in
the list that it references by id; and when the scan finds a confirmed
flagged approval with a waiting dependent, that first dependent is
released within the cycle. -/
theorem dependencyReleaseC4 (w : Bool) (o : P1ProcOutcome) (txs : List PendingTx) :
    (processPendingTransactionsP1 w o txs).countP isReleaseUpdate ≤ 1
  ∧ (∀ i, BackendUpdate.setStatus i TxStatus.pending none ∈ processPendingTransactionsP1 w o txs →
      ∃ a, a ∈ txs ∧ a.status = TxStatus.confirmed ∧ descHasApproval a = true ∧
        ∃ d, d ∈ txs ∧ d.id = i ∧ d.status = TxStatus.approvalPending ∧
          metaApprovalTxId d = some a.id)
  ∧ (∀ a d, w = true →
      txs.find? (fun tx => isConfirmedApprovalWithDependent txs tx) = some a →
      txs.find? (fun tx => isDependentOf a tx) = some d →
      processPendingTransactionsP1 w o txs
        = [BackendUpdate.setStatus d.id TxStatus.pending none]) := by
  refine ⟨?_, ?_, ?_⟩
  · rcases processP1_shape w o txs with h | ⟨a, d, _, _, h⟩ | h <;> rw [h]
    · simp
    · simp [List.countP_cons, isReleaseUpdate]
    · have h0 : (executorPhase o txs).countP isReleaseUpdate = 0 :=
        List.countP_eq_zero.mpr (fun u hu => by
          simp [executorPhase_no_release o txs u hu])
      simp [h0]
  · intro i hmem
    rcases processP1_shape w o txs with h | ⟨a, d, ha, hd, h⟩ | h <;> rw [h] at hmem
    · simp at hmem
    · simp only [List.mem_singleton, BackendUpdate.setStatus.injEq] at hmem
      have hma := List.mem_of_find?_eq_some ha
      have hmd := List.mem_of_find?_eq_some hd
      have hpa := List.find?_some ha
      have hpd := List.find?_some hd
      simp only [isConfirmedApprovalWithDependent, Bool.and_eq_true, beq_iff_eq] at hpa
      simp only [isDependentOf, Bool.and_eq_true, beq_iff_eq] at hpd
      exact ⟨a, hma, hpa.1.1, hpa.1.2, d, hmd, hmem.1.symm, hpd.1, hpd.2⟩
    · have hfalse := executorPhase_no_release o txs _ hmem
      simp [isReleaseUpdate] at hfalse
  · intro a d hw ha hd
    subst hw
    cases txs with
    | nil => simp at ha
    | cons t ts => simp [processPendingTransactionsP1, ha, hd]

/-- C5 (counterexample). A CONFIRMED approval-flagged transaction and a
blocked dependent with the same destination contract and an ERC-20
approve selector in its call data, but no stored approval id: the
resolver releases nothing, though the claim says a destination or
token-signature match suffices. -/
theorem approvalMatchByIdC5cex :
    blockedSameDest.toAddr = confirmedApprovalNoLink.toAddr
  ∧ metaApprovalTxId blockedSameDest = none
  ∧ confirmedApprovalNoLink.status = TxStatus.confirmed
  ∧ descHasApproval confirmedApprovalNoLink = true
  ∧ blockedSameDest.status = TxStatus.approvalPending
  ∧ processPendingTransactionsP1 true P1ProcOutcome.addrThrow
      [confirmedApprovalNoLink, blockedSameDest] = [] := by
  refine ⟨rfl, rfl, rfl, by decide, rfl, ?_⟩
  decide

/-- C5 (amended). Every dependent the resolver releases was matched
solely through id linkage: the released transaction is the first
APPROVAL_PENDING transaction whose stored approval id equals the id of
the confirmed approval the scan found; no destination-address or
call-data fallback exists. -/
theorem approvalMatchByIdC5 (w : Bool) (o : P1ProcOutcome) (txs : List PendingTx) (i : String)
    (hmem : BackendUpdate.setStatus i TxStatus.pending none ∈ processPendingTransactionsP1 w o txs) :
    ∃ a, txs.find? (fun tx => isConfirmedApprovalWithDependent txs tx) = some a ∧
      a.status = TxStatus.confirmed ∧
      ∃ d, txs.find? (fun tx => isDependentOf a tx) = some d ∧ d.id = i ∧
        d.status = TxStatus.approvalPending ∧ metaApprovalTxId d = some a.id := by
  rcases processP1_shape w o txs with h | ⟨a, d, ha, hd, h⟩ | h <;> rw [h] at hmem
  · simp at hmem
  · simp only [List.mem_singleton, BackendUpdate.setStatus.injEq] at hmem
    have hpa := List.find?_some ha
    have hpd := List.find?_some hd
    simp only [isConfirmedApprovalWithDependent, Bool.and_eq_true, beq_iff_eq] at hpa
    simp only [isDependentOf, Bool.and_eq_true, beq_iff_eq] at hpd
    exact ⟨a, ha, hpa.1.1, d, hd, hmem.1.symm, hpd.1, hpd.2⟩
  · have hfalse := executorPhase_no_release o txs _ hmem
    simp [isReleaseUpdate] at hfalse

/-- C5 (witness). The amended claim at a two-transaction list where the
dependent references the confirmed approval by id. -/
theorem approvalMatchByIdC5Witness :
    ∃ a, [approvalTxA, dependentTxB].find?
        (fun tx => isConfirmedApprovalWithDependent [approvalTxA, dependentTxB] tx) = some a ∧
      a.status = TxStatus.confirmed ∧
      ∃ d, [approvalTxA, dependentTxB].find? (fun tx => isDependentOf a tx) = some d ∧
        d.id = "b1" ∧ d.status = TxStatus.approvalPending ∧ metaApprovalTxId d = some a.id :=
  approvalMatchByIdC5 true P1ProcOutcome.addrThrow [approvalTxA, dependentTxB] "b1" (by decide)

/-- C6 (counterexample). On the unknown-chain error (code 4902) the
adapter issues the add request with the full descriptor and reports
success immediately: the request list ends with the add and contains
exactly one wallet_switchEthereumChain request, so no retry of the
switch precedes the success report, contrary to the claim. -/
theorem chainAddNoRetryC6cex :
    switchToChain providerUnknownChain ChainName.base
      = ([WalletReq.chainIdReq, WalletReq.switchReq baseChainHex,
          WalletReq.addReq baseNetworkParams], SwitchResult.ok true)
  ∧ (switchToChain providerUnknownChain ChainName.base).1.countP isSwitchReq = 1 := by
  constructor <;> decide

/-- C6 (amended). When the provider rejects the switch with the
unknown-chain condition and the add succeeds, both adapters issue
exactly one wallet_addEthereumChain request carrying the full network
descriptor (name, currency, ordered RPC list, explorer URL) and report
success immediately, without retrying wallet_switchEthereumChain. -/
theorem chainAddThenSuccessC6 (p q : ProviderState) (c : ChainName) (e f : JsError)
    (h1 : p.switchResult = some e) (h2 : isUnknownChainError e = true) (h3 : p.addResult = none)
    (h4 : q.currentChainId ≠ celoChainHex) (h5 : q.switchResult = some f)
    (h6 : isUnknownChainError f = true) (h7 : q.addResult = none) :
    switchToChain p c
      = ([WalletReq.chainIdReq, WalletReq.switchReq (targetChainHex c),
          WalletReq.addReq (targetNetworkParams c)], SwitchResult.ok true)
  ∧ switchToceloChain q
      = ([WalletReq.chainIdReq, WalletReq.switchReq celoChainHex,
          WalletReq.addReq celoNetworkParamsP2], SwitchResult.ok true) := by
  constructor
  · simp [switchToChain, h1, h2, h3]
  · have hb : (q.currentChainId == celoChainHex) = false := beq_eq_false_iff_ne.mpr h4
    simp [switchToceloChain, hb, h5, h6, h7]

/-- C6 (witness). The amended claim on a provider reporting code 4902
whose add request succeeds. -/
theorem chainAddThenSuccessC6Witness :
    switchToChain providerUnknownChain ChainName.base
      = ([WalletReq.chainIdReq, WalletReq.switchReq (targetChainHex ChainName.base),
          WalletReq.addReq (targetNetworkParams ChainName.base)], SwitchResult.ok true)
  ∧ switchToceloChain providerUnknownChain
      = ([WalletReq.chainIdReq, WalletReq.switchReq celoChainHex,
          WalletReq.addReq celoNetworkParamsP2], SwitchResult.ok true) :=
  chainAddThenSuccessC6 providerUnknownChain providerUnknownChain ChainName.base
    { code := some 4902, msg := "" } { code := some 4902, msg := "" }
    rfl (by decide) rfl (by decide) rfl (by decide) rfl

/-- C7. The part_003 reconciler classifies a SUBMITTED transaction by
its receipt: a success receipt yields CONFIRMED with the hash, any other
receipt yields FAILED with the hash, and a failed receipt fetch leaves
the status unchanged at SUBMITTED. -/
theorem reconcilerReceiptC7 (tx : PendingTx) (h s : String) :
    executeTransactionP3 true (SendOutcome.ok h) true (ReceiptResult.receipt "success") tx
      = { updates := [BackendUpdate.setStatus tx.id TxStatus.submitted none,
            BackendUpdate.setStatus tx.id TxStatus.submitted (some h),
            BackendUpdate.setStatus tx.id TxStatus.confirmed (some h)],
          sendCalls := 1, result := some h, threw := false }
  ∧ (s ≠ "success" →
      executeTransactionP3 true (SendOutcome.ok h) true (ReceiptResult.receipt s) tx
        = { updates := [BackendUpdate.setStatus tx.id TxStatus.submitted none,
              BackendUpdate.setStatus tx.id TxStatus.submitted (some h),
              BackendUpdate.setStatus tx.id TxStatus.failed (some h)],
            sendCalls := 1, result := some h, threw := false })
  ∧ executeTransactionP3 true (SendOutcome.ok h) true ReceiptResult.fetchError tx
      = { updates := [BackendUpdate.setStatus tx.id TxStatus.submitted none,
            BackendUpdate.setStatus tx.id TxStatus.submitted (some h)],
          sendCalls := 1, result := some h, threw := false } := by
  refine ⟨by simp [executeTransactionP3], fun hs => ?_, by simp [executeTransactionP3]⟩
  have hb : (s == "success") = false := beq_eq_false_iff_ne.mpr hs
  simp [executeTransactionP3, hb]

/-- C8. A user-rejected signature request makes the Executor mark the
transaction REJECTED with no hash after a single sendTransaction call —
no retry and no hash-carrying update — in both the transactionService.ts
version (which then throws the typed user-rejection error) and the
part_001 version (which returns null). -/
theorem rejectionHandlingC8 (tx tx2 : PendingTx) (adapt : AdaptOutcome) (e f : JsError)
    (h1 : isUserRejectionTS e = true) (h2 : adapt ≠ AdaptOutcome.switchTxError)
    (h3 : isUserRejectionP1 f = true) :
    executeTransactionTS true adapt (SendOutcome.err e) tx
      = { updates := [BackendUpdate.setStatus tx.id TxStatus.submitted none,
            BackendUpdate.setStatus tx.id TxStatus.rejected none],
          sendCalls := 1, result := none, threw := true }
  ∧ executeTransactionP1 true (SignOutcome.sendErr f) tx2
      = { updates := [BackendUpdate.setStatus tx2.id TxStatus.submitted none,
            BackendUpdate.setStatus tx2.id TxStatus.rejected none],
          sendCalls := 1, result := none, threw := false } := by
  constructor
  · cases adapt with
    | switchTxError => exact absurd rfl h2
    | noProvider => simp [executeTransactionTS, sendPhaseTS, h1]
    | adapted => simp [executeTransactionTS, sendPhaseTS, h1]
    | switchOtherError => simp [executeTransactionTS, sendPhaseTS, h1]
  · simp [executeTransactionP1, h3]

/-- C8 (witness). Rejection handling at the spec's scenario transaction
and the standard code-4001 rejection error. -/
theorem rejectionHandlingC8Witness :
    executeTransactionTS true AdaptOutcome.adapted (SendOutcome.err rejectionError) txScenario
      = { updates := [BackendUpdate.setStatus txScenario.id TxStatus.submitted none,
            BackendUpdate.setStatus txScenario.id TxStatus.rejected none],
          sendCalls := 1, result := none, threw := true }
  ∧ executeTransactionP1 true (SignOutcome.sendErr rejectionError) txScenario
      = { updates := [BackendUpdate.setStatus txScenario.id TxStatus.submitted none,
            BackendUpdate.setStatus txScenario.id TxStatus.rejected none],
          sendCalls := 1, result := none, threw := false } :=
  rejectionHandlingC8 txScenario txScenario AdaptOutcome.adapted rejectionError rejectionError
    (by decide) (by decide) (by decide)

/-- C9 (counterexample). sendTransaction resolving with the malformed
value "cancelled" raises the invalid-hash error, but because the error
message embeds the value and "cancelled" contains the pattern "cancel",
the inner handler classifies it as a user rejection: the transaction
ends REJECTED, not FAILED as the claim states. -/
theorem invalidHashC9cex :
    isValidTxHash "cancelled" = false
  ∧ executeTransactionP1 true (SignOutcome.sendOk "cancelled") txScenario
      = { updates := [BackendUpdate.setStatus "tx1" TxStatus.submitted none,
            BackendUpdate.setStatus "tx1" TxStatus.rejected none],
          sendCalls := 1, result := none, threw := false } := by
  constructor <;> decide

/-- C9 (amended). A malformed sendTransaction value is never recorded as
the transaction's hash and executeTransaction returns null after one
send call; the transaction is marked FAILED by the outer handler unless
the malformed value's own text matches a rejection pattern, in which
case the inner handler marks it REJECTED. -/
theorem invalidHashC9 (tx : PendingTx) (v : String) (hv : isValidTxHash v = false) :
    (executeTransactionP1 true (SignOutcome.sendOk v) tx).result = none
  ∧ (executeTransactionP1 true (SignOutcome.sendOk v) tx).sendCalls = 1
  ∧ BackendUpdate.setStatus tx.id TxStatus.submitted (some v)
      ∉ (executeTransactionP1 true (SignOutcome.sendOk v) tx).updates
  ∧ (isUserRejectionP1 (invalidHashError v) = false →
      executeTransactionP1 true (SignOutcome.sendOk v) tx
        = { updates := [BackendUpdate.setStatus tx.id TxStatus.submitted none,
              BackendUpdate.setStatus tx.id TxStatus.failed none],
            sendCalls := 1, result := none, threw := false })
  ∧ (isUserRejectionP1 (invalidHashError v) = true →
      executeTransactionP1 true (SignOutcome.sendOk v) tx
        = { updates := [BackendUpdate.setStatus tx.id TxStatus.submitted none,
              BackendUpdate.setStatus tx.id TxStatus.rejected none],
            sendCalls := 1, result := none, threw := false }) := by
  cases hr : isUserRejectionP1 (invalidHashError v) <;>
    simp [executeTransactionP1, hv, hr]

/-- C9 (witness). The amended claim at the malformed value "zz", whose
text matches no rejection pattern, so the run ends FAILED. -/
theorem invalidHashC9Witness :
    (executeTransactionP1 true (SignOutcome.sendOk "zz") txScenario).result = none
  ∧ (executeTransactionP1 true (SignOutcome.sendOk "zz") txScenario).sendCalls = 1
  ∧ BackendUpdate.setStatus txScenario.id TxStatus.submitted (some "zz")
      ∉ (executeTransactionP1 true (SignOutcome.sendOk "zz") txScenario).updates
  ∧ (isUserRejectionP1 (invalidHashError "zz") = false →
      executeTransactionP1 true (SignOutcome.sendOk "zz") txScenario
        = { updates := [BackendUpdate.setStatus txScenario.id TxStatus.submitted none,
              BackendUpdate.setStatus txScenario.id TxStatus.failed none],
            sendCalls := 1, result := none, threw := false })
  ∧ (isUserRejectionP1 (invalidHashError "zz") = true →
      executeTransactionP1 true (SignOutcome.sendOk "zz") txScenario
        = { updates := [BackendUpdate.setStatus txScenario.id TxStatus.submitted none,
              BackendUpdate.setStatus txScenario.id TxStatus.rejected none],
            sendCalls := 1, result := none, threw := false }) :=
  invalidHashC9 txScenario "zz" (by decide)

/-- C10. createPrivyWalletClient returns null (never throws) on every
failure path — null wallet, no resolvable provider, provider without a
request method, or failed provider test followed by a failed client test
— and the transaction monitor then skips the cycle without issuing any
status update. -/
theorem walletClientFailureC10 (w : WalletSpec) (p : ProviderSpec) (adapt : AdaptOutcome)
    (send : SendOutcome) (txs : List PendingTx) :
    (w.isNull = true → createPrivyWalletClient w = none)
  ∧ (resolvedProvider w = none → createPrivyWalletClient w = none)
  ∧ (resolvedProvider w = some p → p.hasRequest = false → createPrivyWalletClient w = none)
  ∧ (resolvedProvider w = some p → p.chainIdResult = none → w.clientTestOk = false →
      createPrivyWalletClient w = none)
  ∧ (createPrivyWalletClient w = none → processTransactionsMonitor w adapt send txs = []) := by
  refine ⟨fun h => by simp [createPrivyWalletClient, h], fun h => ?_, fun h hq => ?_,
    fun h hc ht => ?_, fun h => ?_⟩
  · cases hn : w.isNull <;> simp [createPrivyWalletClient, hn, h]
  · cases hn : w.isNull <;> simp [createPrivyWalletClient, hn, h, hq]
  · cases hn : w.isNull <;> simp [createPrivyWalletClient, hn, h, hc, ht]
  · simp [processTransactionsMonitor, h]

example : celoChainHex = "0xa4ec" := by decide
example : baseChainHex = "0x2105" := by decide
example : strIncludes "user rejected the request" "rejected" = true := by decide
example : strLower "Token Approval" = "token approval" := by decide
example :
    switchToceloChain { currentChainId := "0xa4ec", switchResult := none, addResult := none } =
      ([WalletReq.chainIdReq], .ok true) := by decide
example :
    (switchToChain { currentChainId := "0xa4ec", switchResult := none, addResult := none }
        ChainName.celo).1 =
      [WalletReq.chainIdReq, WalletReq.switchReq "0xa4ec"] := by decide
